import Mathlib

/-!
Shallow embedding of `generate_image.py` (feedmob-adpilot-mcp):
a CLI script that generates an ad image via the Gemini API and uploads it
to ImageKit, printing one JSON object and exiting 0 on success, nonzero on
failure.  External services (the generation call, the upload call, the
random uuid) are modelled as explicit inputs to `main`; the environment is
a record of the four credential variables the script touches.
-/

namespace GenImg

/-- Python truthiness of an optional string: `None` and `""` are falsy. -/
def truthy : Option String → Bool
  | none => false
  | some s => s ≠ ""

/-- Python `a or b` on optional strings: `a` unless it is falsy. -/
def pyOr (a b : Option String) : Option String :=
  match a with
  | some s => if s = "" then b else some s
  | none => b

/-- Python `a or dflt` where the fallback is a plain string
(`part.inline_data.mime_type or 'image/png'`). -/
def pyStrOr (a : Option String) (dflt : String) : String :=
  match a with
  | some s => if s = "" then dflt else s
  | none => dflt

/-- The process environment, restricted to the four variables the script
reads or writes (`os.getenv` / `os.environ[...]`). -/
structure Env where
  google_api_key : Option String
  imagekit_private_key : Option String
  imagekit_public_key : Option String
  imagekit_url_endpoint : Option String
deriving DecidableEq, Repr

/-- `GeminiImageGenerator.__init__`: resolve the key as
`api_key or os.getenv('GOOGLE_API_KEY')`, raise `ValueError` if it is falsy,
otherwise store it, write it back into `os.environ['GOOGLE_API_KEY']`, and
build the client.  Returns the stored key and the updated environment. -/
def geminiInit (api_key : Option String) (env : Env) :
    Except String (String × Env) :=
  match pyOr api_key env.google_api_key with
  | none => .error "Google API key not found. Set GOOGLE_API_KEY environment variable or pass api_key parameter"
  | some s =>
    if s = "" then
      .error "Google API key not found. Set GOOGLE_API_KEY environment variable or pass api_key parameter"
    else
      .ok (s, { env with google_api_key := some s })

/-- The credential triple stored by `ImageKitUploader.__init__`. -/
structure ImageKitUploader where
  private_key : Option String
  public_key : Option String
  url_endpoint : Option String
deriving DecidableEq, Repr

/-- `ImageKitUploader.__init__`: each credential is
`argument or os.getenv(VAR)`; `if not all([...])` raises `ValueError`.
The environment is only read. -/
def imagekitInit (priv pub endp : Option String) (env : Env) :
    Except String ImageKitUploader :=
  let p := pyOr priv env.imagekit_private_key
  let b := pyOr pub env.imagekit_public_key
  let u := pyOr endp env.imagekit_url_endpoint
  if truthy p && truthy b && truthy u then
    .ok ⟨p, b, u⟩
  else
    .error "ImageKit credentials not found. Set IMAGEKIT_PRIVATE_KEY, IMAGEKIT_PUBLIC_KEY, and IMAGEKIT_URL_ENDPOINT environment variables"

/-- `inline_data` of a response part: raw bytes plus optional mime type. -/
structure InlineData where
  data : List Nat
  mime_type : Option String
deriving DecidableEq, Repr

/-- One part of a Gemini response: optional text, optional inline data
(the genai `Part` fields the script touches). -/
structure Part where
  text : Option String
  inline_data : Option InlineData
deriving DecidableEq, Repr

/-- The response-scanning loop of `GeminiImageGenerator.generate_image`:
`if part.text is not None:` log and continue; `elif part.inline_data is not
None:` return its bytes and `mime_type or 'image/png'`; after the loop,
raise.  The remote call itself is the caller's input; this models what the
method does with the returned parts. -/
def generate_image : List Part → Except String (List Nat × String)
  | [] => .error "No image data found in Gemini response"
  | p :: rest =>
    if p.text.isSome then
      generate_image rest
    else
      match p.inline_data with
      | some d => .ok (d.data, pyStrOr d.mime_type "image/png")
      | none => generate_image rest

/-- A Python dict with string keys and string-or-`None` values, as an
association list (first binding wins, like dict lookup). -/
abbrev Dict := List (String × Option String)

/-- `k in d` for a dict. -/
def dictContains (d : Dict) (k : String) : Bool :=
  (d.find? (fun p => p.1 = k)).isSome

/-- `d.get(k)`: the stored value if the key is present (possibly `None`),
else `None`. -/
def dictGet (d : Dict) (k : String) : Option String :=
  match d.find? (fun p => p.1 = k) with
  | some kv => kv.2
  | none => none

/-- `d.get(k, dflt)`: the stored value if the key is present, else the
default. -/
def dictGetD (d : Dict) (k : String) (dflt : String) : Option String :=
  match d.find? (fun p => p.1 = k) with
  | some kv => kv.2
  | none => some dflt

/-- The SDK's `UploadFileResult` as the script probes it:
`response_metadata.raw` when the attribute chain exists and is a dict
(`none` models a missing attribute or a non-dict), and the flat attributes
(`none` models a missing attribute, read through `getattr(..., None)`). -/
structure UploadFileResult where
  response_metadata_raw : Option Dict
  url : Option String
  file_id : Option String
  name : Option String
  thumbnail_url : Option String
deriving DecidableEq, Repr

/-- The normalized upload result the script builds in either branch of
`ImageKitUploader.upload`. -/
structure UploadResult where
  url : Option String
  file_id : Option String
  name : Option String
  thumbnail_url : Option String
deriving DecidableEq, Repr

/-- Response normalization of `ImageKitUploader.upload`: prefer the raw
metadata dict when it exists and has a `'url'` key; otherwise fall back to
truthy flat `result.url`; otherwise raise.  The upload request itself
(base64 encoding and the network call) is external; `result` is the
service's response. -/
def upload (filename : String) (result : UploadFileResult) :
    Except String UploadResult :=
  let flat : Except String UploadResult :=
    match result.url with
    | some u =>
      if u = "" then
        .error "ImageKit upload failed or unexpected response"
      else
        .ok ⟨some u, result.file_id, some (result.name.getD filename),
             result.thumbnail_url⟩
    | none => .error "ImageKit upload failed or unexpected response"
  match result.response_metadata_raw with
  | some raw =>
    if dictContains raw "url" then
      .ok ⟨dictGet raw "url", dictGet raw "fileId",
           dictGetD raw "name" filename, dictGet raw "thumbnailUrl"⟩
    else
      flat
  | none => flat

/-- Substring test on character lists (Python `sub in s`). -/
def substrB (sub : List Char) : List Char → Bool
  | [] => sub.isEmpty
  | c :: t => sub.isPrefixOf (c :: t) || substrB sub t

/-- `ext = "png" if "png" in mime_type else "jpg"`. -/
def makeExt (mime : String) : String :=
  if substrB "png".data mime.data then "png" else "jpg"

/-- `f"ad_:campaign_:variation_:uuid4().hex[:8].:ext"`: the upload
filename, with the 32-char uuid hex supplied as input. -/
def makeFilename (campaign variation uuidHex mime : String) : String :=
  "ad_" ++ campaign ++ "_" ++ variation ++ "_" ++
    String.mk (uuidHex.data.take 8) ++ "." ++ makeExt mime

/-- The parsed command line (`args` after `parser.parse_args()`). -/
structure Args where
  prompt : String
  variation : String
  model : String
  aspect_ratio : String
  campaign_id : String
deriving DecidableEq, Repr

/-- A raw command line: each defined flag's supplied value (or `none`),
plus any options not among the five defined flags. -/
structure CmdLine where
  prompt : Option String
  variation : Option String
  model : Option String
  aspect_ratio : Option String
  campaign_id : Option String
  unknown : List String
deriving DecidableEq, Repr

/-- The allowed `--aspect-ratio` choices. -/
def allowedRatios : List String := ["1:1", "3:4", "4:3", "9:16", "16:9"]

/-- `parser.parse_args()`: the script defines exactly `--prompt`
(required), `--variation` (choices A/B, default A), `--model` (default
gemini-2.5-flash-image), `--aspect-ratio` (five choices, default 1:1) and
`--campaign-id` (default "default").  Unrecognized options, a missing
required flag, or a value outside a `choices` list make argparse call
`parser.error`, which exits the process with status 2 (no JSON printed). -/
def parse_args (c : CmdLine) : Except Nat Args :=
  if c.unknown ≠ [] then .error 2
  else
    match c.prompt with
    | none => .error 2
    | some p =>
      if c.variation.getD "A" ∉ (["A", "B"] : List String) then .error 2
      else if c.aspect_ratio.getD "1:1" ∉ allowedRatios then .error 2
      else
        .ok ⟨p, c.variation.getD "A", c.model.getD "gemini-2.5-flash-image",
             c.aspect_ratio.getD "1:1", c.campaign_id.getD "default"⟩

/-- The single JSON object printed to stdout. -/
structure ScriptResult where
  success : Bool
  variation_id : String
  image_url : Option String
  thumbnail_url : Option String
  file_id : Option String
  mime_type : Option String
  prompt_used : Option String
  error : Option String
deriving DecidableEq, Repr

/-- The failure JSON built in the `except` block. -/
def failJson (msg variation : String) : ScriptResult :=
  ⟨false, variation, none, none, none, none, none, some msg⟩

/-- External calls the pipeline performs, in order. -/
inductive Event where
  | genCall
  | uploadCall
deriving DecidableEq, Repr

/-- Observable outcome of one script invocation: process exit code, the
JSON printed (if any), the network calls attempted in order, and the final
environment. -/
structure RunResult where
  exitCode : Nat
  printed : Option ScriptResult
  trace : List Event
  finalEnv : Env
deriving DecidableEq, Repr

/-- `main()`: parse the flags (argparse exits 2 itself on bad arguments,
outside the `try`), then inside the `try` construct the generator (no
explicit key) and the uploader, generate, build the filename, upload, and
print the success JSON with exit 0; any exception is converted to a
`success: false` JSON and exit 1.  `genResp` is the outcome of the remote
generation call (its parts, or the exception it raised), `upResp` that of
the remote upload call, `uuidHex` the value of `uuid.uuid4().hex`. -/
def main (c : CmdLine) (env : Env) (genResp : Except String (List Part))
    (upResp : Except String UploadFileResult) (uuidHex : String) : RunResult :=
  match parse_args c with
  | .error code => ⟨code, none, [], env⟩
  | .ok args =>
    match geminiInit none env with
    | .error msg => ⟨1, some (failJson msg args.variation), [], env⟩
    | .ok (_, env1) =>
      match imagekitInit none none none env1 with
      | .error msg => ⟨1, some (failJson msg args.variation), [], env1⟩
      | .ok _ =>
        match genResp with
        | .error msg => ⟨1, some (failJson msg args.variation), [.genCall], env1⟩
        | .ok parts =>
          match generate_image parts with
          | .error msg =>
            ⟨1, some (failJson msg args.variation), [.genCall], env1⟩
          | .ok (_, mime_type) =>
            let filename :=
              makeFilename args.campaign_id args.variation uuidHex mime_type
            match upResp with
            | .error msg =>
              ⟨1, some (failJson msg args.variation), [.genCall, .uploadCall],
               env1⟩
            | .ok result =>
              match upload filename result with
              | .error msg =>
                ⟨1, some (failJson msg args.variation),
                 [.genCall, .uploadCall], env1⟩
              | .ok ur =>
                ⟨0,
                 some ⟨true, args.variation, ur.url, ur.thumbnail_url,
                       ur.file_id, some mime_type, some args.prompt, none⟩,
                 [.genCall, .uploadCall], env1⟩

/-! ## Helper lemmas -/

theorem pyOr_none_left (b : Option String) : pyOr none b = b := rfl

theorem parse_args_error_eq (c : CmdLine) (k : Nat)
    (h : parse_args c = .error k) : k = 2 := by
  unfold parse_args at h
  split at h
  · exact (Except.error.injEq _ _).mp h |>.symm
  · split at h
    · exact (Except.error.injEq _ _).mp h |>.symm
    · split at h
      · exact (Except.error.injEq _ _).mp h |>.symm
      · split at h
        · exact (Except.error.injEq _ _).mp h |>.symm
        · exact absurd h (by simp)

theorem geminiInit_none_env_eq (env : Env) (p : String × Env)
    (h : geminiInit none env = .ok p) : p.2 = env := by
  cases env with
  | mk g i1 i2 i3 =>
    cases g with
    | none => simp [geminiInit, pyOr] at h
    | some s =>
      by_cases hs : s = ""
      · simp [geminiInit, pyOr, hs] at h
      · simp [geminiInit, pyOr, hs] at h
        rw [← h]

theorem geminiInit_none_ok (env : Env)
    (ht : truthy env.google_api_key = true) :
    ∃ s, env.google_api_key = some s ∧ geminiInit none env = .ok (s, env) := by
  cases env with
  | mk g i1 i2 i3 =>
    cases g with
    | none => simp [truthy] at ht
    | some s =>
      simp [truthy] at ht
      exact ⟨s, rfl, by simp [geminiInit, pyOr, ht]⟩

theorem geminiInit_none_missing (env : Env)
    (ht : truthy env.google_api_key = false) :
    geminiInit none env =
      .error "Google API key not found. Set GOOGLE_API_KEY environment variable or pass api_key parameter" := by
  cases env with
  | mk g i1 i2 i3 =>
    cases g with
    | none => simp [geminiInit, pyOr]
    | some s =>
      simp [truthy] at ht
      simp [geminiInit, pyOr, ht]

theorem imagekitInit_none_ok (env : Env)
    (h1 : truthy env.imagekit_private_key = true)
    (h2 : truthy env.imagekit_public_key = true)
    (h3 : truthy env.imagekit_url_endpoint = true) :
    imagekitInit none none none env =
      .ok ⟨env.imagekit_private_key, env.imagekit_public_key,
           env.imagekit_url_endpoint⟩ := by
  simp [imagekitInit, pyOr_none_left, h1, h2, h3]

theorem imagekitInit_none_missing (env : Env)
    (hm : env.imagekit_private_key = none ∨ env.imagekit_public_key = none ∨
          env.imagekit_url_endpoint = none) :
    imagekitInit none none none env =
      .error "ImageKit credentials not found. Set IMAGEKIT_PRIVATE_KEY, IMAGEKIT_PUBLIC_KEY, and IMAGEKIT_URL_ENDPOINT environment variables" := by
  rcases hm with h | h | h <;>
    simp [imagekitInit, pyOr_none_left, truthy, h]

theorem generate_image_no_inline (parts : List Part)
    (h : ∀ p ∈ parts, p.inline_data = none) :
    generate_image parts = .error "No image data found in Gemini response" := by
  induction parts with
  | nil => rfl
  | cons p rest ih =>
    have hp := h p (by simp)
    have ih' := ih (fun q hq => h q (by simp [hq]))
    cases ht : p.text with
    | some t => simp [generate_image, ht, ih']
    | none => simp [generate_image, ht, hp, ih']

theorem generate_image_skip (pre : List Part) (p : Part) (post : List Part)
    (d : InlineData) (hpre : ∀ q ∈ pre, q.inline_data = none)
    (ht : p.text = none) (hd : p.inline_data = some d) :
    generate_image (pre ++ p :: post) =
      .ok (d.data, pyStrOr d.mime_type "image/png") := by
  induction pre with
  | nil => simp [generate_image, ht, hd]
  | cons q rest ih =>
    have hq := hpre q (by simp)
    have ih' := ih (fun r hr => hpre r (by simp [hr]))
    cases hqt : q.text with
    | some t => simp [generate_image, hqt, ih']
    | none => simp [generate_image, hqt, hq, ih']

theorem substrB_eq_true_iff (sub s : List Char) :
    substrB sub s = true ↔ sub <:+: s := by
  induction s with
  | nil => simp [substrB, List.isEmpty_iff]
  | cons c t ih =>
    simp [substrB, List.infix_cons_iff, List.isPrefixOf_iff_prefix, ih]

/-! ## Concrete fixtures for witnesses and counterexamples -/

/-- An environment with all four credentials set and non-empty. -/
def envFull : Env := ⟨some "gkey", some "ipriv", some "ipub", some "iend"⟩

/-- An environment where only `GOOGLE_API_KEY` is unset. -/
def envNoGoogle : Env := ⟨none, some "ipriv", some "ipub", some "iend"⟩

/-- An environment where only `IMAGEKIT_PRIVATE_KEY` is unset. -/
def envNoPriv : Env := ⟨some "gkey", none, some "ipub", some "iend"⟩

/-- A well-formed command line: only `--prompt` supplied. -/
def cmdOk : CmdLine := ⟨some "a red car", none, none, none, none, []⟩

/-- The `Args` that `cmdOk` parses to. -/
def argsOk : Args := ⟨"a red car", "A", "gemini-2.5-flash-image", "1:1", "default"⟩

/-! ## Claims -/

/-- C2: when `GOOGLE_API_KEY` is unset (and `main` supplies no explicit
`api_key`), the script exits with code 1, prints a JSON object with
`success == false`, and attempts no network call to the generation or
upload service. -/
theorem main_missing_google_key (c : CmdLine) (env : Env)
    (gr : Except String (List Part)) (ur : Except String UploadFileResult)
    (uh : String) (args : Args) (hp : parse_args c = .ok args)
    (hk : env.google_api_key = none) :
    (main c env gr ur uh).exitCode = 1 ∧
    (∃ j, (main c env gr ur uh).printed = some j ∧ j.success = false) ∧
    (main c env gr ur uh).trace = [] := by
  have hg := geminiInit_none_missing env (by simp [truthy, hk])
  refine ⟨?_, ?_, ?_⟩ <;> simp [main, hp, hg, failJson]

/-- Witness for C2 at a concrete command line and environment. -/
theorem main_missing_google_key_witness :
    (main cmdOk envNoGoogle (.ok []) (.error "boom") "").exitCode = 1 ∧
    (∃ j, (main cmdOk envNoGoogle (.ok []) (.error "boom") "").printed =
        some j ∧ j.success = false) ∧
    (main cmdOk envNoGoogle (.ok []) (.error "boom") "").trace = [] :=
  main_missing_google_key cmdOk envNoGoogle (.ok []) (.error "boom") ""
    argsOk rfl rfl

/-- C3: when any of the three ImageKit variables is unset, the script exits
with code 1, prints a JSON object with `success == false`, and never makes
an image-generation call (both constructors run before the generation
call; whichever fails, the pipeline aborts first). -/
theorem main_missing_imagekit (c : CmdLine) (env : Env)
    (gr : Except String (List Part)) (ur : Except String UploadFileResult)
    (uh : String) (args : Args) (hp : parse_args c = .ok args)
    (hm : env.imagekit_private_key = none ∨ env.imagekit_public_key = none ∨
          env.imagekit_url_endpoint = none) :
    (main c env gr ur uh).exitCode = 1 ∧
    (∃ j, (main c env gr ur uh).printed = some j ∧ j.success = false) ∧
    Event.genCall ∉ (main c env gr ur uh).trace := by
  cases htr : truthy env.google_api_key with
  | false =>
    have hg := geminiInit_none_missing env htr
    refine ⟨?_, ?_, ?_⟩ <;> simp [main, hp, hg, failJson]
  | true =>
    obtain ⟨s, hsome, hg⟩ := geminiInit_none_ok env htr
    have hik := imagekitInit_none_missing env hm
    refine ⟨?_, ?_, ?_⟩ <;> simp [main, hp, hg, hik, failJson]

/-- Witness for C3 at a concrete command line and environment. -/
theorem main_missing_imagekit_witness :
    (main cmdOk envNoPriv (.ok []) (.error "boom") "").exitCode = 1 ∧
    (∃ j, (main cmdOk envNoPriv (.ok []) (.error "boom") "").printed =
        some j ∧ j.success = false) ∧
    Event.genCall ∉ (main cmdOk envNoPriv (.ok []) (.error "boom") "").trace :=
  main_missing_imagekit cmdOk envNoPriv (.ok []) (.error "boom") ""
    argsOk rfl (Or.inl rfl)

/-- C4: when the generation response has no image part (every part's
`inline_data` is absent), `generate_image` raises the generation error, and
`main` converts it into a `success: false` JSON carrying that message and
exits with code 1. -/
theorem main_no_image_part (c : CmdLine) (env : Env)
    (ur : Except String UploadFileResult) (uh : String) (args : Args)
    (parts : List Part) (hp : parse_args c = .ok args)
    (hg : truthy env.google_api_key = true)
    (h1 : truthy env.imagekit_private_key = true)
    (h2 : truthy env.imagekit_public_key = true)
    (h3 : truthy env.imagekit_url_endpoint = true)
    (hparts : ∀ p ∈ parts, p.inline_data = none) :
    generate_image parts = .error "No image data found in Gemini response" ∧
    (main c env (.ok parts) ur uh).exitCode = 1 ∧
    ∃ j, (main c env (.ok parts) ur uh).printed = some j ∧
      j.success = false ∧
      j.error = some "No image data found in Gemini response" := by
  have hgen := generate_image_no_inline parts hparts
  obtain ⟨s, hsome, hgi⟩ := geminiInit_none_ok env hg
  have hik := imagekitInit_none_ok env h1 h2 h3
  refine ⟨hgen, ?_, ?_⟩ <;> simp [main, hp, hgi, hik, hgen, failJson]

/-- Witness for C4: a response holding a single text-only part. -/
theorem main_no_image_part_witness :
    generate_image [⟨some "only text", none⟩] =
      .error "No image data found in Gemini response" ∧
    (main cmdOk envFull (.ok [⟨some "only text", none⟩]) (.error "boom")
        "").exitCode = 1 ∧
    ∃ j, (main cmdOk envFull (.ok [⟨some "only text", none⟩]) (.error "boom")
        "").printed = some j ∧
      j.success = false ∧
      j.error = some "No image data found in Gemini response" :=
  main_no_image_part cmdOk envFull (.error "boom") "" argsOk
    [⟨some "only text", none⟩] rfl rfl rfl rfl rfl (by decide)

/-- C5: `upload` normalizes both response shapes to the same
`UploadResult` fields: when the raw metadata dict exists and holds a
`'url'` key it is used (url, fileId, name with filename fallback,
thumbnailUrl); otherwise a truthy flat `result.url` attribute is used with
`getattr` fallbacks; and when neither shape yields a URL, `upload` raises
the upload error. -/
theorem upload_normalizes (fn : String) (result : UploadFileResult) :
    (∀ raw, result.response_metadata_raw = some raw →
      dictContains raw "url" = true →
      upload fn result =
        .ok ⟨dictGet raw "url", dictGet raw "fileId",
             dictGetD raw "name" fn, dictGet raw "thumbnailUrl"⟩) ∧
    ((∀ raw, result.response_metadata_raw = some raw →
        dictContains raw "url" = false) →
      ∀ u, result.url = some u → u ≠ "" →
      upload fn result =
        .ok ⟨some u, result.file_id, some (result.name.getD fn),
             result.thumbnail_url⟩) ∧
    ((∀ raw, result.response_metadata_raw = some raw →
        dictContains raw "url" = false) →
      truthy result.url = false →
      upload fn result =
        .error "ImageKit upload failed or unexpected response") := by
  refine ⟨?_, ?_, ?_⟩
  · intro raw hraw hurl
    simp [upload, hraw, hurl]
  · intro hno u hu hu'
    cases hraw : result.response_metadata_raw with
    | none => simp [upload, hraw, hu, hu']
    | some raw => simp [upload, hraw, hno raw hraw, hu, hu']
  · intro hno ht
    cases hraw : result.response_metadata_raw with
    | none =>
      cases hu : result.url with
      | none => simp [upload, hraw, hu]
      | some u =>
        rw [hu] at ht
        simp [truthy] at ht
        simp [upload, hraw, hu, ht]
    | some raw =>
      cases hu : result.url with
      | none => simp [upload, hraw, hno raw hraw, hu]
      | some u =>
        rw [hu] at ht
        simp [truthy] at ht
        simp [upload, hraw, hno raw hraw, hu, ht]

/-- A nested-shape upload response: the raw metadata dict carries the
fields. -/
def resNested : UploadFileResult :=
  ⟨some [("url", some "http://ik/u.png"), ("fileId", some "id1"),
         ("thumbnailUrl", some "http://ik/t.png")], none, none, none, none⟩

/-- A flat-shape upload response: attributes on the result object. -/
def resFlat : UploadFileResult :=
  ⟨none, some "http://ik/flat.png", some "id2", none, some "http://ik/tf.png"⟩

/-- A response where neither shape yields a URL. -/
def resBad : UploadFileResult := ⟨some [("x", some "y")], none, none, none, none⟩

/-- Witness for C5: all three branches at concrete responses. -/
theorem upload_normalizes_witness :
    upload "f.png" resNested =
      .ok ⟨dictGet [("url", some "http://ik/u.png"), ("fileId", some "id1"),
             ("thumbnailUrl", some "http://ik/t.png")] "url",
           dictGet [("url", some "http://ik/u.png"), ("fileId", some "id1"),
             ("thumbnailUrl", some "http://ik/t.png")] "fileId",
           dictGetD [("url", some "http://ik/u.png"), ("fileId", some "id1"),
             ("thumbnailUrl", some "http://ik/t.png")] "name" "f.png",
           dictGet [("url", some "http://ik/u.png"), ("fileId", some "id1"),
             ("thumbnailUrl", some "http://ik/t.png")] "thumbnailUrl"⟩ ∧
    upload "f.png" resFlat =
      .ok ⟨some "http://ik/flat.png", resFlat.file_id,
           some (resFlat.name.getD "f.png"), resFlat.thumbnail_url⟩ ∧
    upload "f.png" resBad =
      .error "ImageKit upload failed or unexpected response" :=
  ⟨(upload_normalizes "f.png" resNested).1 _ rfl (by decide),
   (upload_normalizes "f.png" resFlat).2.1 (by simp [resFlat]) _ rfl
     (by decide),
   (upload_normalizes "f.png" resBad).2.2
     (by intro raw hraw; cases hraw; decide) rfl⟩

/-- The sixteen lowercase hexadecimal digits (`uuid4().hex` alphabet). -/
def lowerHexChars : List Char := "0123456789abcdef".data

/-- C6: given the 32-char lowercase-hex `uuid4().hex`, the upload filename
is exactly `ad_{campaign}_{variation}_{h}.{ext}` where `h` is the first 8
characters of the uuid hex (so 8 lowercase hex characters), and the
extension is `png` iff the mime type contains the substring `png`, else
`jpg`. -/
theorem makeFilename_form (campaign variation uh mime : String)
    (hlen : uh.data.length = 32)
    (hhex : ∀ ch ∈ uh.data, ch ∈ lowerHexChars) :
    makeFilename campaign variation uh mime =
      "ad_" ++ campaign ++ "_" ++ variation ++ "_" ++
        String.mk (uh.data.take 8) ++ "." ++ makeExt mime ∧
    (String.mk (uh.data.take 8)).length = 8 ∧
    (∀ ch ∈ uh.data.take 8, ch ∈ lowerHexChars) ∧
    (makeExt mime = "png" ↔ "png".data <:+: mime.data) ∧
    (makeExt mime = "jpg" ↔ ¬ "png".data <:+: mime.data) := by
  refine ⟨rfl, ?_, ?_, ?_, ?_⟩
  · show (uh.data.take 8).length = 8
    rw [List.length_take, hlen]
    decide
  · exact fun ch hch => hhex ch (List.take_subset 8 uh.data hch)
  · rw [← substrB_eq_true_iff]
    unfold makeExt
    cases hs : substrB "png".data mime.data <;> simp [hs]
  · rw [← substrB_eq_true_iff]
    unfold makeExt
    cases hs : substrB "png".data mime.data <;> simp [hs]

/-- A concrete `uuid4().hex` value. -/
def uuidHex0 : String := "0123456789abcdef0123456789abcdef"

/-- Witness for C6 at a concrete uuid hex and png mime type. -/
theorem makeFilename_form_witness :
    makeFilename "camp" "A" uuidHex0 "image/png" =
      "ad_" ++ "camp" ++ "_" ++ "A" ++ "_" ++
        String.mk (uuidHex0.data.take 8) ++ "." ++ makeExt "image/png" ∧
    (String.mk (uuidHex0.data.take 8)).length = 8 ∧
    (∀ ch ∈ uuidHex0.data.take 8, ch ∈ lowerHexChars) ∧
    (makeExt "image/png" = "png" ↔ "png".data <:+: "image/png".data) ∧
    (makeExt "image/png" = "jpg" ↔ ¬ "png".data <:+: "image/png".data) :=
  makeFilename_form "camp" "A" uuidHex0 "image/png" (by decide) (by decide)

/-- C7: for a response whose parts each carry at most one payload (a part
with inline data has no text, as the generation service produces), the
first part carrying inline data is returned: its bytes together with its
declared media type, while earlier text-only or empty parts are skipped and
never returned. -/
theorem generate_image_first_image (pre : List Part) (p : Part)
    (post : List Part) (d : InlineData) (m : String)
    (hwf : ∀ q ∈ pre ++ p :: post, q.inline_data.isSome = true →
      q.text = none)
    (hpre : ∀ q ∈ pre, q.inline_data = none)
    (hd : p.inline_data = some d)
    (hm : d.mime_type = some m) (hm' : m ≠ "") :
    generate_image (pre ++ p :: post) = .ok (d.data, m) := by
  have ht : p.text = none := hwf p (by simp) (by simp [hd])
  rw [generate_image_skip pre p post d hpre ht hd]
  simp [pyStrOr, hm, hm']

/-- Witness for C7: a text part, then the image part, then a trailing
image part that is not reached. -/
theorem generate_image_first_image_witness :
    generate_image
      [⟨some "caption", none⟩, ⟨none, some ⟨[7, 7], some "image/jpeg"⟩⟩,
       ⟨none, some ⟨[9], some "image/png"⟩⟩] = .ok ([7, 7], "image/jpeg") :=
  generate_image_first_image [⟨some "caption", none⟩]
    ⟨none, some ⟨[7, 7], some "image/jpeg"⟩⟩
    [⟨none, some ⟨[9], some "image/png"⟩⟩]
    ⟨[7, 7], some "image/jpeg"⟩ "image/jpeg" (by decide) (by decide) rfl rfl
    (by decide)

/-- C10: when the first returned image part declares no media type
(`mime_type` absent or empty), `generate_image` substitutes the default
`"image/png"` next to the image bytes. -/
theorem generate_image_default_mime (pre : List Part) (p : Part)
    (post : List Part) (d : InlineData)
    (hwf : ∀ q ∈ pre ++ p :: post, q.inline_data.isSome = true →
      q.text = none)
    (hpre : ∀ q ∈ pre, q.inline_data = none)
    (hd : p.inline_data = some d)
    (hm : d.mime_type = none ∨ d.mime_type = some "") :
    generate_image (pre ++ p :: post) = .ok (d.data, "image/png") := by
  have ht : p.text = none := hwf p (by simp) (by simp [hd])
  rw [generate_image_skip pre p post d hpre ht hd]
  rcases hm with h | h <;> simp [pyStrOr, h]

/-- Witness for C10: an image part with no declared mime type. -/
theorem generate_image_default_mime_witness :
    generate_image [⟨some "caption", none⟩, ⟨none, some ⟨[3], none⟩⟩] =
      .ok ([3], "image/png") :=
  generate_image_default_mime [⟨some "caption", none⟩]
    ⟨none, some ⟨[3], none⟩⟩ [] ⟨[3], none⟩ (by decide) (by decide) rfl
    (Or.inl rfl)

/-- A command line whose `--aspect-ratio` value is outside the allowed
choices. -/
def cmdBadRatio : CmdLine :=
  ⟨some "a red car", none, none, some "2:1", none, []⟩

/-- C1 counterexample: an invalid `--aspect-ratio` makes argparse exit the
process with status 2 and no JSON — not with status 1 as the claim
states. -/
theorem main_invalid_arg_exits_two :
    main cmdBadRatio envFull (.ok []) (.error "boom") "" =
      ⟨2, none, [], envFull⟩ ∧
    (main cmdBadRatio envFull (.ok []) (.error "boom") "").exitCode ≠ 1 :=
  ⟨rfl, by decide⟩

/-- C1 (amended): exit code 0 exactly when a `success: true` JSON is
printed; exit code 1 exactly when a `success: false` JSON is printed
(missing credentials and every error propagated from the generator or
uploader); but invalid command-line arguments make argparse exit with
status 2, printing no JSON. -/
theorem main_exit_code_characterization (c : CmdLine) (env : Env)
    (gr : Except String (List Part)) (ur : Except String UploadFileResult)
    (uh : String) :
    ((main c env gr ur uh).exitCode = 0 ∨ (main c env gr ur uh).exitCode = 1 ∨
      (main c env gr ur uh).exitCode = 2) ∧
    ((main c env gr ur uh).exitCode = 0 ↔
      ∃ j, (main c env gr ur uh).printed = some j ∧ j.success = true) ∧
    ((main c env gr ur uh).exitCode = 1 ↔
      ∃ j, (main c env gr ur uh).printed = some j ∧ j.success = false) ∧
    ((main c env gr ur uh).exitCode = 2 ↔
      (main c env gr ur uh).printed = none) := by
  rcases hp : parse_args c with k | args
  · have hk := parse_args_error_eq c k hp
    subst hk
    simp [main, hp]
  · rcases hg : geminiInit none env with msg | q
    · simp [main, hp, hg, failJson]
    · obtain ⟨key, env1⟩ := q
      rcases hik : imagekitInit none none none env1 with msg | upl
      · simp [main, hp, hg, hik, failJson]
      · rcases gr with msg | parts
        · simp [main, hp, hg, hik, failJson]
        · rcases hgen : generate_image parts with msg | pair
          · simp [main, hp, hg, hik, hgen, failJson]
          · obtain ⟨bytes, mime⟩ := pair
            rcases ur with msg | result
            · simp [main, hp, hg, hik, hgen, failJson]
            · rcases hup : upload
                  (makeFilename args.campaign_id args.variation uh mime)
                  result with msg | uok
              · simp [main, hp, hg, hik, hgen, hup, failJson]
              · simp [main, hp, hg, hik, hgen, hup]

/-- A command line that also passes an `--api-key` option. -/
def cmdApiKey : CmdLine :=
  ⟨some "a red car", none, none, none, none, ["--api-key", "SECRET"]⟩

/-- C8 counterexample: `--api-key` is not among the five flags the parser
defines, so argument parsing fails (argparse status 2, no JSON, no
generator constructed) instead of succeeding. -/
theorem main_api_key_flag_rejected_at :
    parse_args cmdApiKey = .error 2 ∧
    main cmdApiKey envFull (.ok []) (.error "boom") "" =
      ⟨2, none, [], envFull⟩ :=
  ⟨rfl, rfl⟩

/-- C8 (amended): the CLI defines no `--api-key` flag; every invocation
supplying one fails argument parsing and exits with status 2 printing
nothing, so the generator is only ever initialized from the
`GOOGLE_API_KEY` environment variable. -/
theorem main_api_key_flag_rejected (c : CmdLine) (env : Env)
    (gr : Except String (List Part)) (ur : Except String UploadFileResult)
    (uh : String) (hu : "--api-key" ∈ c.unknown) :
    parse_args c = .error 2 ∧ main c env gr ur uh = ⟨2, none, [], env⟩ := by
  have hne : c.unknown ≠ [] := by
    intro h
    rw [h] at hu
    simp at hu
  have hp : parse_args c = .error 2 := by
    unfold parse_args
    rw [if_pos hne]
  exact ⟨hp, by simp [main, hp]⟩

/-- Witness for the amended C8 at a concrete command line. -/
theorem main_api_key_flag_rejected_witness :
    parse_args cmdApiKey = .error 2 ∧
    main cmdApiKey envNoGoogle (.ok []) (.error "boom") "" =
      ⟨2, none, [], envNoGoogle⟩ :=
  main_api_key_flag_rejected cmdApiKey envNoGoogle (.ok []) (.error "boom")
    "" (by decide)

/-- An environment whose `GOOGLE_API_KEY` is `"a"`. -/
def envKeyA : Env := ⟨some "a", none, none, none⟩

/-- C9 counterexample: the generator's constructor does not only read the
environment — `os.environ['GOOGLE_API_KEY'] = self.api_key` writes it, so
constructing it with an explicit key changes the environment. -/
theorem geminiInit_writes_environment :
    geminiInit (some "b") envKeyA = .ok ("b", ⟨some "b", none, none, none⟩) ∧
    (⟨some "b", none, none, none⟩ : Env) ≠ envKeyA :=
  ⟨rfl, by decide⟩

/-- C9 (amended): `main` constructs the generator without an explicit key,
so the value written back to `GOOGLE_API_KEY` is the one just read, and for
every script invocation the environment after constructing Generator and
Uploader (indeed after the whole run) equals the environment before. -/
theorem main_env_unchanged (c : CmdLine) (env : Env)
    (gr : Except String (List Part)) (ur : Except String UploadFileResult)
    (uh : String) : (main c env gr ur uh).finalEnv = env := by
  rcases hp : parse_args c with k | args
  · simp [main, hp]
  · rcases hg : geminiInit none env with msg | q
    · simp [main, hp, hg]
    · have he : q.2 = env := geminiInit_none_env_eq env q hg
      obtain ⟨key, env1⟩ := q
      simp only at he
      subst he
      rcases hik : imagekitInit none none none env1 with msg | upl
      · simp [main, hp, hg, hik]
      · rcases gr with msg | parts
        · simp [main, hp, hg, hik]
        · rcases hgen : generate_image parts with msg | pair
          · simp [main, hp, hg, hik, hgen]
          · obtain ⟨bytes, mime⟩ := pair
            rcases ur with msg | result
            · simp [main, hp, hg, hik, hgen]
            · rcases hup : upload
                  (makeFilename args.campaign_id args.variation uh mime)
                  result with msg | uok
              · simp [main, hp, hg, hik, hgen, hup]
              · simp [main, hp, hg, hik, hgen, hup]

end GenImg
